import Mathlib

/-!
# Verification of the sync-event reconciliation core of a messaging client

This file shallowly embeds the reconciliation logic for delivery/read/view
receipts (`MessageReceipts`), view-once-open syncs (`ViewOnceOpenSyncs`) and
message-request responses (`MessageRequests`) and proves the frozen claims
about it.  Mutable Backbone collections become explicit lists threaded
through the operations; the ambient `window` collaborators (storage, the
conversation controller, settings) become an explicit `Env` record of
functions; JavaScript objects keyed by conversation id become association
lists whose update has JS spread semantics (replace in place, else append).
-/

/-- Per-recipient send status.  Modelled from the spec: the full status
enumeration of `MessageSendState` (outside this excerpt) is
Pending/Sent/Failed/Delivered/Read/Viewed, with the lattice order
Pending/Sent ≤ Delivered ≤ Read ≤ Viewed and Failed absorbing. -/
inductive SendStatus where
  | Pending
  | Sent
  | Failed
  | Delivered
  | Read
  | Viewed
deriving DecidableEq, Repr

/-- Rank of a status in the send-state lattice; used only to compare a
status already reached against the status a receipt would establish.
`Failed` is short-circuited before the rank is consulted. -/
def statusRank : SendStatus → Nat
  | SendStatus.Pending => 0
  | SendStatus.Sent => 1
  | SendStatus.Failed => 1
  | SendStatus.Delivered => 2
  | SendStatus.Read => 3
  | SendStatus.Viewed => 4

/-- Per-recipient send state: a status plus an optional last-update time. -/
structure SendState where
  status : SendStatus
  updatedAt : Option Nat
deriving DecidableEq, Repr

/-- The three receipt-driven actions of the send-state reducer.  Modelled
from the spec: the reducer's other actions belong to the send pipeline and
are unreachable from receipt processing. -/
inductive SendActionType where
  | GotDeliveryReceipt
  | GotReadReceipt
  | GotViewedReceipt
deriving DecidableEq, Repr

/-- An action fed to the send-state reducer. -/
structure SendAction where
  type : SendActionType
  updatedAt : Option Nat
deriving DecidableEq, Repr

/-- The status a receipt action tries to establish. -/
def receiptTargetStatus : SendActionType → SendStatus
  | SendActionType.GotDeliveryReceipt => SendStatus.Delivered
  | SendActionType.GotReadReceipt => SendStatus.Read
  | SendActionType.GotViewedReceipt => SendStatus.Viewed

/-- Combine the previous `updatedAt` with a receipt's timestamp without
moving backward in time. -/
def bumpUpdatedAt : Option Nat → Option Nat → Option Nat
  | some u, some t => some (max u t)
  | some u, none => some u
  | none, t => t

/-- Modelled from the spec: `sendStateReducer` lives in
`ts/messages/MessageSendState`, outside this excerpt.  Per the spec it is a
pure, total monotonic merge: a receipt upgrades the status when the status
it establishes is strictly above the current one in the lattice, never
downgrades it, never regresses `updatedAt`, and leaves the absorbing
`Failed` state untouched. -/
def sendStateReducer (s : SendState) (a : SendAction) : SendState :=
  if s.status = SendStatus.Failed then
    s
  else if statusRank (receiptTargetStatus a.type) ≤ statusRank s.status then
    { status := s.status, updatedAt := bumpUpdatedAt s.updatedAt a.updatedAt }
  else
    { status := receiptTargetStatus a.type,
      updatedAt := bumpUpdatedAt s.updatedAt a.updatedAt }

/-- A message's per-recipient send states, keyed by conversation id.  A
JavaScript object becomes an association list; see `setOwn`. -/
abbrev SendStateByConversationId := List (String × SendState)

/-- `getOwn(obj, key)`: the value at an own key, if present. -/
def getOwn (m : SendStateByConversationId) (k : String) : Option SendState :=
  (m.find? (fun p => p.1 == k)).map (fun p => p.2)

/-- JS spread update `{...m, [k]: v}`: an existing key keeps its position
and gets the new value, a new key is appended. -/
def setOwn : SendStateByConversationId → String → SendState → SendStateByConversationId
  | [], k, v => [(k, v)]
  | p :: rest, k, v =>
    if p.1 = k then (k, v) :: rest else p :: setOwn rest k v

/-- The kind of a receipt. -/
inductive MessageReceiptType where
  | Delivery
  | Read
  | View
deriving DecidableEq, Repr

/-- Attributes of a buffered receipt event (`MessageReceiptAttributesType`). -/
structure MessageReceiptAttributesType where
  messageSentAt : Nat
  receiptTimestamp : Nat
  sourceServiceId : String
  sourceConversationId : String
  sourceDevice : Nat
  type : MessageReceiptType
  wasSentEncrypted : Bool
deriving DecidableEq, Repr

/-- Direction/kind of a message, as read by the `isOutgoing`/`isStory`
selectors. -/
inductive MessageType where
  | incoming
  | outgoing
  | story
  | other
deriving DecidableEq, Repr

/-- One entry of a message's edit history: the revision's own timestamp and
its own send-state mapping. -/
structure EditHistoryEntry where
  timestamp : Nat
  sendStateByConversationId : Option SendStateByConversationId
deriving DecidableEq, Repr

/-- The message-attribute projection used by the reconciliation core
(`MessageAttributesType`). -/
structure MessageAttributesType where
  id : String
  conversationId : String
  type : MessageType
  timestamp : Nat
  sent_at : Nat
  editMessageTimestamp : Option Nat
  sendStateByConversationId : Option SendStateByConversationId
  editHistory : Option (List EditHistoryEntry)
  storyDistributionListId : Option String
  deletedForEveryone : Bool
  sourceServiceId : Option String
  source : Option String
deriving DecidableEq, Repr

/-- Modelled from the spec: the `isOutgoing` selector (outside this
excerpt) recognises outgoing messages by their type attribute. -/
def isOutgoing (m : MessageAttributesType) : Bool :=
  m.type == MessageType.outgoing

/-- Modelled from the spec: the `isStory` selector (outside this excerpt)
recognises story messages by their type attribute. -/
def isStory (m : MessageAttributesType) : Bool :=
  m.type == MessageType.story

/-- Modelled from the spec: `getMessageSentTimestamp` (outside this
excerpt) returns the message's sent timestamp, the key under which early
receipts are buffered and matched. -/
def getMessageSentTimestamp (m : MessageAttributesType) : Nat :=
  m.sent_at

/-- A conversation, as seen through the conversation controller.  The
`debouncedUpdateLastMessage` flag records whether the conversation carries
the debounced last-message updater callback. -/
structure Conversation where
  id : String
  e164 : Option String
  serviceId : Option String
  groupId : Option String
  debouncedUpdateLastMessage : Bool
deriving DecidableEq, Repr

/-- The ambient collaborators reached through `window`: settings storage,
message storage, the conversation controller and the user's own identity. -/
structure Env where
  /-- `window.storage.get('read-receipt-setting')`. -/
  readReceiptSetting : Bool
  /-- `window.Events.getStoryViewReceiptsEnabled()`. -/
  storyViewReceiptsEnabled : Bool
  /-- `window.textsecure.storage.user.getCheckedAci()`. -/
  ourAci : String
  /-- `window.Signal.Data.getMessagesBySentAt`. -/
  getMessagesBySentAt : Nat → List MessageAttributesType
  /-- `window.Signal.Data.getAllGroupsInvolvingServiceId`. -/
  getAllGroupsInvolvingServiceId : String → List Conversation
  /-- `window.ConversationController.get`. -/
  getConversationById : String → Option Conversation
  /-- `window.ConversationController.lookupOrCreate({e164, serviceId})`. -/
  lookupOrCreate : Option String → Option String → Option Conversation
  /-- Modelled from the spec: the `getSourceServiceId` helper (outside this
  excerpt) yields the service identity a message originates from. -/
  getSourceServiceId : MessageAttributesType → Option String

/-- `shouldDropReceipt`: the per-event policy check.  Delivery receipts are
never dropped; read receipts are dropped when the global read-receipt
setting is off; view receipts follow the per-story setting for story
content and the global read-receipt setting otherwise. -/
def shouldDropReceipt (env : Env) (receipt : MessageReceiptAttributesType)
    (message : MessageAttributesType) : Bool :=
  match receipt.type with
  | MessageReceiptType.Delivery => false
  | MessageReceiptType.Read => !env.readReceiptSetting
  | MessageReceiptType.View =>
    if isStory message then !env.storyViewReceiptsEnabled
    else !env.readReceiptSetting

/-- Remove the first occurrence of an element from a list: the Backbone
`collection.remove(model)` on a buffer holding that model once. -/
def removeFirst [DecidableEq α] : List α → α → List α
  | [], _ => []
  | x :: xs, a => if x = a then xs else x :: removeFirst xs a

/-- `getTargetMessage`: among the stored messages with the receipt's sent
timestamp, pick the first outgoing-or-story message of the source
conversation; failing that, the first outgoing-or-story message in one of
the group conversations the source identity participates in (the source
conversation id itself included); `none` for an empty candidate list. -/
def getTargetMessage (env : Env) (sourceId : String) (serviceId : String)
    (messages : List MessageAttributesType) : Option MessageAttributesType :=
  if messages.isEmpty then
    none
  else
    match messages.find? (fun item =>
        (isOutgoing item || isStory item) && sourceId == item.conversationId) with
    | some message => some message
    | none =>
      let groups := env.getAllGroupsInvolvingServiceId serviceId
      let ids := groups.map (fun item => item.id) ++ [sourceId]
      messages.find? (fun item =>
        (isOutgoing item || isStory item) && ids.contains item.conversationId)

namespace MessageReceipts

/-- The send action a receipt kind translates to. -/
def receiptSendActionType : MessageReceiptType → SendActionType
  | MessageReceiptType.Delivery => SendActionType.GotDeliveryReceipt
  | MessageReceiptType.Read => SendActionType.GotReadReceipt
  | MessageReceiptType.View => SendActionType.GotViewedReceipt

/-- `getNewSendStateByConversationId`: merge a receipt into a send-state
mapping.  A missing entry for the receipt's source conversation defaults to
`{status: Sent, updatedAt: undefined}`. -/
def getNewSendStateByConversationId
    (oldSendStateByConversationId : SendStateByConversationId)
    (receipt : MessageReceiptAttributesType) : SendStateByConversationId :=
  let oldSendState :=
    (getOwn oldSendStateByConversationId receipt.sourceConversationId).getD
      { status := SendStatus.Sent, updatedAt := none }
  let newSendState := sendStateReducer oldSendState
    { type := receiptSendActionType receipt.type,
      updatedAt := some receipt.receiptTimestamp }
  setOwn oldSendStateByConversationId receipt.sourceConversationId newSendState

/-- The per-edit-history-entry map of `updateMessageSendState`: a revision
whose timestamp equals the receipt's `messageSentAt` gets the receipt
merged into its own mapping, any other revision is returned unchanged. -/
def applyReceiptToEdit (receipt : MessageReceiptAttributesType)
    (edit : EditHistoryEntry) : EditHistoryEntry :=
  if receipt.messageSentAt ≠ edit.timestamp then
    edit
  else
    { edit with
      sendStateByConversationId :=
        some (getNewSendStateByConversationId
          (edit.sendStateByConversationId.getD []) receipt) }

/-- Outcome of `updateMessageSendState`: the updated message attributes,
whether `queueUpdateMessage` persisted them, and whether the conversation's
debounced last-message updater was invoked. -/
structure UpdateResult where
  message : MessageAttributesType
  persisted : Bool
  uiNotified : Bool
deriving DecidableEq, Repr

/-- Whether the UI collaborator can be notified for a conversation: the
conversation controller finds it and it carries the debounced updater. -/
def conversationNotifies (env : Env) (conversationId : String) : Bool :=
  match env.getConversationById conversationId with
  | some conversation => conversation.debouncedUpdateLastMessage
  | none => false

/-- `updateMessageSendState`: apply one receipt to one target message.
After the policy check, merge the receipt into every edit-history revision
with the receipt's timestamp; merge it into the top-level mapping when the
receipt's timestamp is the message's own or its current edit timestamp and
the merge changes the mapping; persist and notify the UI only when some
mapping changed.  (The sealed-sender cleanup enqueue that follows in the
source touches no state modelled here.) -/
def updateMessageSendState (env : Env) (receipt : MessageReceiptAttributesType)
    (message : MessageAttributesType) : UpdateResult :=
  if shouldDropReceipt env receipt message then
    { message := message, persisted := false, uiNotified := false }
  else
    let editHistory := message.editHistory.getD []
    let newEditHistory := editHistory.map (applyReceiptToEdit receipt)
    let message1 :=
      if newEditHistory = editHistory then message
      else { message with editHistory := some newEditHistory }
    let topMatches :=
      receipt.messageSentAt = message.timestamp ∨
        message.editMessageTimestamp = some receipt.messageSentAt
    let oldTop := message.sendStateByConversationId.getD []
    let newTop := getNewSendStateByConversationId oldTop receipt
    let message2 :=
      if topMatches ∧ newTop ≠ oldTop then
        { message1 with sendStateByConversationId := some newTop }
      else message1
    let hasChanges := newEditHistory ≠ editHistory ∨ (topMatches ∧ newTop ≠ oldTop)
    { message := message2,
      persisted := decide hasChanges,
      uiNotified := decide hasChanges && conversationNotifies env message.conversationId }

/-- Outcome of `forMessage`: the early receipts handed to the message and
the buffer left behind. -/
structure ForMessageResult where
  receipts : List MessageReceiptAttributesType
  buffer : List MessageReceiptAttributesType
deriving DecidableEq, Repr

/-- `MessageReceipts.forMessage`: a newly registered outgoing-or-story
message sent by us pulls every buffered receipt with its sent timestamp out
of the buffer and receives those that survive the policy check. -/
def forMessage (env : Env) (buffer : List MessageReceiptAttributesType)
    (message : MessageAttributesType) : ForMessageResult :=
  if !(isOutgoing message || isStory message) then
    { receipts := [], buffer := buffer }
  else if env.getSourceServiceId message ≠ some env.ourAci then
    { receipts := [], buffer := buffer }
  else
    let sentAt := getMessageSentTimestamp message
    let receipts := buffer.filter (fun receipt => receipt.messageSentAt == sentAt)
    let newBuffer := buffer.filter (fun receipt => !(receipt.messageSentAt == sentAt))
    { receipts := receipts.filter (fun receipt => !shouldDropReceipt env receipt message),
      buffer := newBuffer }

/-- The secondary story targets of `onReceipt`: stored messages with the
receipt's sent timestamp that carry a story-distribution-list id, have a
send-state mapping, are not deleted for everyone, and whose mapping has an
entry for the receipt's source conversation. -/
def storyTargets (env : Env) (receipt : MessageReceiptAttributesType) :
    List MessageAttributesType :=
  (env.getMessagesBySentAt receipt.messageSentAt).filter (fun item =>
    item.storyDistributionListId.isSome &&
    item.sendStateByConversationId.isSome &&
    !item.deletedForEveryone &&
    (getOwn (item.sendStateByConversationId.getD []) receipt.sourceConversationId).isSome)

/-- Outcome of `onReceipt`: the buffer left behind and the per-target
update results, in target order. -/
structure OnReceiptResult where
  buffer : List MessageReceiptAttributesType
  processed : List UpdateResult
deriving DecidableEq, Repr

/-- `MessageReceipts.onReceipt`: resolve the receipt's target message (or
story-copy targets), apply the receipt to each, and remove the receipt from
its buffer when some target was processed; when nothing matches the handler
returns with the receipt still buffered. -/
def onReceipt (env : Env) (buffer : List MessageReceiptAttributesType)
    (receipt : MessageReceiptAttributesType) : OnReceiptResult :=
  let messages := env.getMessagesBySentAt receipt.messageSentAt
  match getTargetMessage env receipt.sourceConversationId receipt.sourceServiceId
      messages with
  | some message =>
    { buffer := removeFirst buffer receipt,
      processed := [updateMessageSendState env receipt message] }
  | none =>
    let targetMessages := storyTargets env receipt
    if targetMessages.isEmpty then
      { buffer := buffer, processed := [] }
    else
      { buffer := removeFirst buffer receipt,
        processed := targetMessages.map (updateMessageSendState env receipt) }

end MessageReceipts

/-- Attributes of a buffered view-once-open sync event. -/
structure ViewOnceOpenSyncAttributesType where
  source : Option String
  sourceAci : String
  timestamp : Nat
deriving DecidableEq, Repr

namespace ViewOnceOpenSyncs

/-- The matching predicate of `ViewOnceOpenSyncs.onSync`: the stored
message and the sync agree on source ACI, or both carry a source number and
agree on it. -/
def viewOnceMatch (sync : ViewOnceOpenSyncAttributesType)
    (item : MessageAttributesType) : Bool :=
  (match item.sourceServiceId with
   | some itemSourceAci => itemSourceAci == sync.sourceAci
   | none => false) ||
  (match item.source, sync.source with
   | some itemSource, some syncSource => itemSource == syncSource
   | _, _ => false)

/-- Outcome of `onSync`: the buffer left behind and the id of the message
marked viewed, if one was found. -/
structure OnSyncResult where
  buffer : List ViewOnceOpenSyncAttributesType
  viewedMessageId : Option String
deriving DecidableEq, Repr

/-- `ViewOnceOpenSyncs.onSync`: find the first stored message with the
sync's timestamp matching by source, mark it viewed and remove the sync
from its buffer; when none matches the handler returns with the sync still
buffered. -/
def onSync (env : Env) (buffer : List ViewOnceOpenSyncAttributesType)
    (sync : ViewOnceOpenSyncAttributesType) : OnSyncResult :=
  match (env.getMessagesBySentAt sync.timestamp).find? (viewOnceMatch sync) with
  | none => { buffer := buffer, viewedMessageId := none }
  | some found =>
    { buffer := removeFirst buffer sync, viewedMessageId := some found.id }

end ViewOnceOpenSyncs

/-- Attributes of a buffered message-request-response event. -/
structure MessageRequestAttributesType where
  threadE164 : Option String
  threadAci : Option String
  groupV2Id : Option String
  type : Nat
deriving DecidableEq, Repr

namespace MessageRequests

/-- Outcome of `forConversation`: the matched response, if any, and the
buffer left behind. -/
structure ForConversationResult where
  response : Option MessageRequestAttributesType
  buffer : List MessageRequestAttributesType
deriving DecidableEq, Repr

/-- `MessageRequests.forConversation`: a conversation pulls its early
message-request response out of the buffer, trying its phone number, then
its service id, then its group-v2 id; the first hit is removed and
returned. -/
def forConversation (buffer : List MessageRequestAttributesType)
    (conversation : Conversation) : ForConversationResult :=
  match (if conversation.e164.isSome then
      buffer.find? (fun sync => sync.threadE164 == conversation.e164)
    else none) with
  | some syncByE164 =>
    { response := some syncByE164, buffer := removeFirst buffer syncByE164 }
  | none =>
    match (if conversation.serviceId.isSome then
        buffer.find? (fun sync => sync.threadAci == conversation.serviceId)
      else none) with
    | some syncByAci =>
      { response := some syncByAci, buffer := removeFirst buffer syncByAci }
    | none =>
      match (if conversation.groupId.isSome then
          buffer.find? (fun sync => sync.groupV2Id == conversation.groupId)
        else none) with
      | some syncByGroupId =>
        { response := some syncByGroupId,
          buffer := removeFirst buffer syncByGroupId }
      | none => { response := none, buffer := buffer }

/-- Outcome of `onResponse`: the buffer left behind and, when a
conversation was selected, that conversation together with the response
type applied to it. -/
structure OnResponseResult where
  buffer : List MessageRequestAttributesType
  applied : Option (Conversation × Nat)
deriving DecidableEq, Repr

/-- `MessageRequests.onResponse`: select the target conversation — by
group-v2 id first (lookup only, never creating), otherwise by looking up or
creating from the phone number / service identity — then apply the response
and remove the event; with no conversation the handler returns with the
event still buffered. -/
def onResponse (env : Env) (buffer : List MessageRequestAttributesType)
    (sync : MessageRequestAttributesType) : OnResponseResult :=
  let fromGroup : Option Conversation :=
    match sync.groupV2Id with
    | some groupV2Id => env.getConversationById groupV2Id
    | none => none
  let conversation : Option Conversation :=
    match fromGroup with
    | some found => some found
    | none =>
      if sync.threadE164.isSome || sync.threadAci.isSome then
        env.lookupOrCreate sync.threadE164 sync.threadAci
      else none
  match conversation with
  | none => { buffer := buffer, applied := none }
  | some found =>
    { buffer := removeFirst buffer sync, applied := some (found, sync.type) }

end MessageRequests

section Lemmas

theorem getOwn_setOwn_self (l : SendStateByConversationId) (k : String)
    (v : SendState) : getOwn (setOwn l k v) k = some v := by
  induction l with
  | nil => simp [getOwn, setOwn]
  | cons p rest ih =>
    by_cases h : p.1 = k
    · simp [getOwn, setOwn, h, List.find?]
    · simpa [getOwn, setOwn, h, List.find?] using ih

theorem setOwn_setOwn_self (l : SendStateByConversationId) (k : String)
    (v w : SendState) : setOwn (setOwn l k v) k w = setOwn l k w := by
  induction l with
  | nil => simp [setOwn]
  | cons p rest ih =>
    by_cases h : p.1 = k
    · simp [setOwn, h]
    · simp [setOwn, h, ih]

theorem bumpUpdatedAt_idem (u t : Option Nat) :
    bumpUpdatedAt (bumpUpdatedAt u t) t = bumpUpdatedAt u t := by
  cases u <;> cases t <;> simp [bumpUpdatedAt, Nat.max_assoc]

theorem receiptTargetStatus_ne_failed (a : SendActionType) :
    receiptTargetStatus a ≠ SendStatus.Failed := by
  cases a <;> simp [receiptTargetStatus]

theorem sendStateReducer_idem (s : SendState) (a : SendAction) :
    sendStateReducer (sendStateReducer s a) a = sendStateReducer s a := by
  by_cases hF : s.status = SendStatus.Failed
  · simp [sendStateReducer, hF]
  · by_cases hLe : statusRank (receiptTargetStatus a.type) ≤ statusRank s.status
    · simp [sendStateReducer, hF, hLe, bumpUpdatedAt_idem]
    · simp [sendStateReducer, hF, hLe, receiptTargetStatus_ne_failed,
        bumpUpdatedAt_idem]

theorem getNewSendState_idem (m : SendStateByConversationId)
    (receipt : MessageReceiptAttributesType) :
    MessageReceipts.getNewSendStateByConversationId
      (MessageReceipts.getNewSendStateByConversationId m receipt) receipt =
    MessageReceipts.getNewSendStateByConversationId m receipt := by
  unfold MessageReceipts.getNewSendStateByConversationId
  simp only [getOwn_setOwn_self, Option.getD_some, sendStateReducer_idem,
    setOwn_setOwn_self]

theorem applyReceiptToEdit_idem (receipt : MessageReceiptAttributesType)
    (edit : EditHistoryEntry) :
    MessageReceipts.applyReceiptToEdit receipt
      (MessageReceipts.applyReceiptToEdit receipt edit) =
    MessageReceipts.applyReceiptToEdit receipt edit := by
  unfold MessageReceipts.applyReceiptToEdit
  by_cases h : receipt.messageSentAt ≠ edit.timestamp
  · simp [h]
  · simp [h, getNewSendState_idem]

theorem map_idem_of_idem {α : Type} (f : α → α) (h : ∀ x, f (f x) = f x)
    (l : List α) : (l.map f).map f = l.map f := by
  induction l with
  | nil => simp
  | cons x xs ih => simp [h, ih]

end Lemmas

theorem shouldDropReceipt_eq_of_type_eq (env : Env)
    (receipt : MessageReceiptAttributesType) {m1 m2 : MessageAttributesType}
    (h : m1.type = m2.type) :
    shouldDropReceipt env receipt m1 = shouldDropReceipt env receipt m2 := by
  unfold shouldDropReceipt isStory
  rw [h]

theorem updateMessageSendState_message_eq (env : Env)
    (receipt : MessageReceiptAttributesType) (m : MessageAttributesType)
    (h : shouldDropReceipt env receipt m = false) :
    (MessageReceipts.updateMessageSendState env receipt m).message =
    { m with
      editHistory :=
        if (m.editHistory.getD []).map (MessageReceipts.applyReceiptToEdit receipt)
            = m.editHistory.getD [] then
          m.editHistory
        else
          some ((m.editHistory.getD []).map
            (MessageReceipts.applyReceiptToEdit receipt)),
      sendStateByConversationId :=
        if (receipt.messageSentAt = m.timestamp ∨
              m.editMessageTimestamp = some receipt.messageSentAt) ∧
            MessageReceipts.getNewSendStateByConversationId
              (m.sendStateByConversationId.getD []) receipt
              ≠ m.sendStateByConversationId.getD [] then
          some (MessageReceipts.getNewSendStateByConversationId
            (m.sendStateByConversationId.getD []) receipt)
        else
          m.sendStateByConversationId } := by
  unfold MessageReceipts.updateMessageSendState
  simp only [h, Bool.false_eq_true, if_false]
  by_cases c1 : (m.editHistory.getD []).map
      (MessageReceipts.applyReceiptToEdit receipt) = m.editHistory.getD []
  · by_cases c2 : (receipt.messageSentAt = m.timestamp ∨
        m.editMessageTimestamp = some receipt.messageSentAt) ∧
        MessageReceipts.getNewSendStateByConversationId
          (m.sendStateByConversationId.getD []) receipt
          ≠ m.sendStateByConversationId.getD []
    · simp [c1, c2]
    · simp [c1, c2]
  · by_cases c2 : (receipt.messageSentAt = m.timestamp ∨
        m.editMessageTimestamp = some receipt.messageSentAt) ∧
        MessageReceipts.getNewSendStateByConversationId
          (m.sendStateByConversationId.getD []) receipt
          ≠ m.sendStateByConversationId.getD []
    · simp [c1, c2]
    · simp [c1, c2]

theorem updateMessageSendState_message_idem (env : Env)
    (receipt : MessageReceiptAttributesType) (m : MessageAttributesType) :
    (MessageReceipts.updateMessageSendState env receipt
      ((MessageReceipts.updateMessageSendState env receipt m).message)).message =
    (MessageReceipts.updateMessageSendState env receipt m).message := by
  by_cases hd : shouldDropReceipt env receipt m = true
  · simp [MessageReceipts.updateMessageSendState, hd]
  · have h0 : shouldDropReceipt env receipt m = false := by
      simpa using hd
    rw [updateMessageSendState_message_eq env receipt m h0]
    set M : MessageAttributesType :=
      { m with
        editHistory :=
          if (m.editHistory.getD []).map (MessageReceipts.applyReceiptToEdit receipt)
              = m.editHistory.getD [] then
            m.editHistory
          else
            some ((m.editHistory.getD []).map
              (MessageReceipts.applyReceiptToEdit receipt)),
        sendStateByConversationId :=
          if (receipt.messageSentAt = m.timestamp ∨
                m.editMessageTimestamp = some receipt.messageSentAt) ∧
              MessageReceipts.getNewSendStateByConversationId
                (m.sendStateByConversationId.getD []) receipt
                ≠ m.sendStateByConversationId.getD [] then
            some (MessageReceipts.getNewSendStateByConversationId
              (m.sendStateByConversationId.getD []) receipt)
          else
            m.sendStateByConversationId } with hM
    have hMtype : M.type = m.type := by rw [hM]
    have hMdrop : shouldDropReceipt env receipt M = false := by
      rw [shouldDropReceipt_eq_of_type_eq env receipt hMtype]; exact h0
    rw [updateMessageSendState_message_eq env receipt M hMdrop]
    have hMts : M.timestamp = m.timestamp := by rw [hM]
    have hMemt : M.editMessageTimestamp = m.editMessageTimestamp := by rw [hM]
    have hMeh : M.editHistory.getD [] =
        (m.editHistory.getD []).map (MessageReceipts.applyReceiptToEdit receipt) := by
      by_cases c1 : (m.editHistory.getD []).map
          (MessageReceipts.applyReceiptToEdit receipt) = m.editHistory.getD []
      · rw [hM]; simp [c1]
      · rw [hM]; simp [c1]
    have hEH2 : (M.editHistory.getD []).map
        (MessageReceipts.applyReceiptToEdit receipt) = M.editHistory.getD [] := by
      rw [hMeh]
      exact map_idem_of_idem _ (applyReceiptToEdit_idem receipt) _
    by_cases c2 : (receipt.messageSentAt = m.timestamp ∨
        m.editMessageTimestamp = some receipt.messageSentAt) ∧
        MessageReceipts.getNewSendStateByConversationId
          (m.sendStateByConversationId.getD []) receipt
          ≠ m.sendStateByConversationId.getD []
    · have hMss : M.sendStateByConversationId =
          some (MessageReceipts.getNewSendStateByConversationId
            (m.sendStateByConversationId.getD []) receipt) := by
        rw [hM]; simp [c2]
      have hC2' : ¬ ((receipt.messageSentAt = M.timestamp ∨
          M.editMessageTimestamp = some receipt.messageSentAt) ∧
          MessageReceipts.getNewSendStateByConversationId
            (M.sendStateByConversationId.getD []) receipt
            ≠ M.sendStateByConversationId.getD []) := by
        rw [hMss]
        simp [getNewSendState_idem]
      simp [hEH2, hC2']
    · have hMss : M.sendStateByConversationId = m.sendStateByConversationId := by
        rw [hM]; simp [c2]
      have hC2' : ¬ ((receipt.messageSentAt = M.timestamp ∨
          M.editMessageTimestamp = some receipt.messageSentAt) ∧
          MessageReceipts.getNewSendStateByConversationId
            (M.sendStateByConversationId.getD []) receipt
            ≠ M.sendStateByConversationId.getD []) := by
        rw [hMss, hMts, hMemt]
        exact c2
      simp [hEH2, hC2']

section Fixtures

/-- A delivery receipt from conversation `conv1` for sent timestamp 10. -/
def sampleReceipt : MessageReceiptAttributesType :=
  { messageSentAt := 10, receiptTimestamp := 100, sourceServiceId := "aci1",
    sourceConversationId := "conv1", sourceDevice := 1,
    type := MessageReceiptType.Delivery, wasSentEncrypted := true }

/-- An outgoing message of conversation `conv1` sent at 10, with no
per-recipient send state recorded yet. -/
def sampleOutgoingMessage : MessageAttributesType :=
  { id := "m1", conversationId := "conv1", type := MessageType.outgoing,
    timestamp := 10, sent_at := 10, editMessageTimestamp := none,
    sendStateByConversationId := none, editHistory := none,
    storyDistributionListId := none, deletedForEveryone := false,
    sourceServiceId := none, source := none }

/-- The same message as an incoming one. -/
def sampleIncomingMessage : MessageAttributesType :=
  { sampleOutgoingMessage with id := "m2", type := MessageType.incoming }

/-- An outgoing message sent at 99, unrelated to `sampleReceipt`. -/
def sampleUnrelatedMessage : MessageAttributesType :=
  { sampleOutgoingMessage with id := "m3", timestamp := 99, sent_at := 99 }

/-- A story message sent to a distribution list from another conversation,
with a send-state entry for `conv1`. -/
def sampleStoryMessage : MessageAttributesType :=
  { id := "m4", conversationId := "other", type := MessageType.story,
    timestamp := 10, sent_at := 10, editMessageTimestamp := none,
    sendStateByConversationId :=
      some [("conv1", { status := SendStatus.Sent, updatedAt := none })],
    editHistory := none,
    storyDistributionListId := some "dist1", deletedForEveryone := false,
    sourceServiceId := none, source := none }

/-- A view-once-open sync for sent timestamp 10. -/
def sampleViewOnceSync : ViewOnceOpenSyncAttributesType :=
  { source := some "+100", sourceAci := "aci9", timestamp := 10 }

/-- An environment with both receipt settings on, whose storage holds no
message at all. -/
def envNoMessages : Env :=
  { readReceiptSetting := true, storyViewReceiptsEnabled := true,
    ourAci := "us",
    getMessagesBySentAt := fun _ => [],
    getAllGroupsInvolvingServiceId := fun _ => [],
    getConversationById := fun _ => none,
    lookupOrCreate := fun _ _ => none,
    getSourceServiceId := fun _ => some "us" }

/-- The same environment with `sampleOutgoingMessage` in storage. -/
def envWithMessage : Env :=
  { envNoMessages with getMessagesBySentAt := fun _ => [sampleOutgoingMessage] }

/-- The same environment with only `sampleStoryMessage` in storage. -/
def envWithStory : Env :=
  { envNoMessages with getMessagesBySentAt := fun _ => [sampleStoryMessage] }

/-- The conversation of a v2 group with id `g1`. -/
def groupConversation : Conversation :=
  { id := "g1", e164 := none, serviceId := none, groupId := some "g1",
    debouncedUpdateLastMessage := true }

/-- A direct conversation reachable by phone number. -/
def phoneConversation : Conversation :=
  { id := "c155", e164 := some "+155", serviceId := some "aci155",
    groupId := none, debouncedUpdateLastMessage := true }

/-- An environment that knows `groupConversation` by id and resolves any
lookup-or-create request to `phoneConversation`. -/
def envGroupAndPhone : Env :=
  { envNoMessages with
    getConversationById := fun id =>
      if id == "g1" then some groupConversation else none,
    lookupOrCreate := fun _ _ => some phoneConversation }

/-- A message-request response carrying both a phone number and a group id. -/
def sampleRequestSync : MessageRequestAttributesType :=
  { threadE164 := some "+155", threadAci := none, groupV2Id := some "g1",
    type := 1 }

end Fixtures

/-- C1 counterexample: with storage holding no message for the event's sent
timestamp, both `onReceipt` and `onSync` run to completion with the event
still sitting in its buffer — an unmatched event is not removed. -/
theorem c1_unmatched_event_stays_buffered :
    (MessageReceipts.onReceipt envNoMessages [sampleReceipt] sampleReceipt).buffer
      = [sampleReceipt] ∧
    (ViewOnceOpenSyncs.onSync envNoMessages [sampleViewOnceSync]
      sampleViewOnceSync).buffer = [sampleViewOnceSync] := by
  decide

/-- C1 (amended): after `onReceipt` the receipt has been removed from its
buffer exactly when a target was processed — a primary target message or at
least one story fallback target — and after `onSync` the sync has been
removed exactly when a matching message was found; an unmatched event
remains in its buffer, available for later retrieval via `forMessage`. -/
theorem c1_buffer_removal_on_match (env : Env)
    (buffer : List MessageReceiptAttributesType)
    (receipt : MessageReceiptAttributesType)
    (bufferS : List ViewOnceOpenSyncAttributesType)
    (sync : ViewOnceOpenSyncAttributesType) :
    (MessageReceipts.onReceipt env buffer receipt).buffer =
      (if (getTargetMessage env receipt.sourceConversationId
            receipt.sourceServiceId
            (env.getMessagesBySentAt receipt.messageSentAt)).isSome ∨
          MessageReceipts.storyTargets env receipt ≠ [] then
        removeFirst buffer receipt
      else buffer) ∧
    (ViewOnceOpenSyncs.onSync env bufferS sync).buffer =
      (if ((env.getMessagesBySentAt sync.timestamp).find?
            (ViewOnceOpenSyncs.viewOnceMatch sync)).isSome then
        removeFirst bufferS sync
      else bufferS) := by
  constructor
  · unfold MessageReceipts.onReceipt
    cases hT : getTargetMessage env receipt.sourceConversationId
        receipt.sourceServiceId (env.getMessagesBySentAt receipt.messageSentAt) with
    | some message => simp [hT]
    | none =>
      by_cases hS : MessageReceipts.storyTargets env receipt = []
      · simp [hT, hS]
      · simp [hT, hS, List.isEmpty_iff]
  · unfold ViewOnceOpenSyncs.onSync
    cases hF : (env.getMessagesBySentAt sync.timestamp).find?
        (ViewOnceOpenSyncs.viewOnceMatch sync) with
    | some found => simp [hF]
    | none => simp [hF]

/-- C2: merging the same receipt into a per-recipient send-state mapping a
second time changes nothing, and re-applying the same receipt event to a
target message leaves the message attributes unchanged. -/
theorem c2_receipt_merge_idempotent (s : SendStateByConversationId)
    (receipt : MessageReceiptAttributesType) (env : Env)
    (m : MessageAttributesType) :
    MessageReceipts.getNewSendStateByConversationId
      (MessageReceipts.getNewSendStateByConversationId s receipt) receipt =
      MessageReceipts.getNewSendStateByConversationId s receipt ∧
    (MessageReceipts.updateMessageSendState env receipt
      ((MessageReceipts.updateMessageSendState env receipt m).message)).message =
      (MessageReceipts.updateMessageSendState env receipt m).message :=
  ⟨getNewSendState_idem s receipt, updateMessageSendState_message_idem env receipt m⟩

/-- C3: for a receipt that passes the policy check, the top-level
send-state mapping is changed only when the receipt's `messageSentAt`
equals the message's own timestamp or its current edit timestamp, and,
independently, the message's edit history becomes the pointwise map that
merges the receipt into every revision whose timestamp equals
`messageSentAt` and returns every other revision unchanged. -/
theorem c3_update_scope (env : Env) (receipt : MessageReceiptAttributesType)
    (m : MessageAttributesType)
    (h : shouldDropReceipt env receipt m = false) :
    (receipt.messageSentAt ≠ m.timestamp →
      m.editMessageTimestamp ≠ some receipt.messageSentAt →
      (MessageReceipts.updateMessageSendState env receipt
        m).message.sendStateByConversationId = m.sendStateByConversationId) ∧
    ((MessageReceipts.updateMessageSendState env receipt
        m).message.editHistory.getD [] =
      (m.editHistory.getD []).map (MessageReceipts.applyReceiptToEdit receipt)) ∧
    (∀ edit : EditHistoryEntry, receipt.messageSentAt = edit.timestamp →
      MessageReceipts.applyReceiptToEdit receipt edit =
        { edit with
          sendStateByConversationId :=
            some (MessageReceipts.getNewSendStateByConversationId
              (edit.sendStateByConversationId.getD []) receipt) }) ∧
    (∀ edit : EditHistoryEntry, receipt.messageSentAt ≠ edit.timestamp →
      MessageReceipts.applyReceiptToEdit receipt edit = edit) := by
  refine ⟨?_, ?_, ?_, ?_⟩
  · intro h1 h2
    rw [updateMessageSendState_message_eq env receipt m h]
    simp [h1, h2]
  · rw [updateMessageSendState_message_eq env receipt m h]
    by_cases c1 : (m.editHistory.getD []).map
        (MessageReceipts.applyReceiptToEdit receipt) = m.editHistory.getD []
    · simp [c1]
    · simp [c1]
  · intro edit hts
    unfold MessageReceipts.applyReceiptToEdit
    simp [hts]
  · intro edit hts
    unfold MessageReceipts.applyReceiptToEdit
    simp [hts]

/-- C3 witness: the receipt for timestamp 10 leaves the top-level mapping
of the unrelated message sent at 99 untouched. -/
theorem c3_update_scope_witness :
    (MessageReceipts.updateMessageSendState envNoMessages sampleReceipt
      sampleUnrelatedMessage).message.sendStateByConversationId =
      sampleUnrelatedMessage.sendStateByConversationId :=
  (c3_update_scope envNoMessages sampleReceipt sampleUnrelatedMessage
    (by decide)).1 (by decide) (by decide)

/-- C4 counterexample: the merge changes the message's top-level mapping
and the message is persisted, yet no UI notification is issued because the
conversation controller does not find the message's conversation — the
claimed "if and only if" fails in the UI direction. -/
theorem c4_changed_without_notification :
    (MessageReceipts.updateMessageSendState envNoMessages sampleReceipt
        sampleOutgoingMessage).message.sendStateByConversationId ≠
      sampleOutgoingMessage.sendStateByConversationId ∧
    (MessageReceipts.updateMessageSendState envNoMessages sampleReceipt
        sampleOutgoingMessage).persisted = true ∧
    (MessageReceipts.updateMessageSendState envNoMessages sampleReceipt
        sampleOutgoingMessage).uiNotified = false := by
  decide

/-- C4 (amended): the persist call is issued exactly when the receipt
passes the policy check and applying the merge produced a structurally
different mapping (in the edit history or, when the receipt's timestamp
matches, at top level); the UI last-message notification is issued exactly
when, in addition, the conversation controller finds the message's
conversation and it carries the debounced last-message updater. -/
theorem c4_persist_and_notify_conditions (env : Env)
    (receipt : MessageReceiptAttributesType) (m : MessageAttributesType) :
    ((MessageReceipts.updateMessageSendState env receipt m).persisted = true ↔
      shouldDropReceipt env receipt m = false ∧
        ((m.editHistory.getD []).map (MessageReceipts.applyReceiptToEdit receipt)
            ≠ m.editHistory.getD [] ∨
          ((receipt.messageSentAt = m.timestamp ∨
              m.editMessageTimestamp = some receipt.messageSentAt) ∧
            MessageReceipts.getNewSendStateByConversationId
              (m.sendStateByConversationId.getD []) receipt
              ≠ m.sendStateByConversationId.getD []))) ∧
    ((MessageReceipts.updateMessageSendState env receipt m).uiNotified = true ↔
      (MessageReceipts.updateMessageSendState env receipt m).persisted = true ∧
        MessageReceipts.conversationNotifies env m.conversationId = true) := by
  unfold MessageReceipts.updateMessageSendState
  by_cases hd : shouldDropReceipt env receipt m = true
  · simp [hd]
  · have h0 : shouldDropReceipt env receipt m = false := by simpa using hd
    simp only [h0, Bool.false_eq_true, if_false]
    constructor
    · simp [h0, decide_eq_true_iff]
    · simp [Bool.and_eq_true]

/-- C5: the matcher returns `none` on an empty candidate list; otherwise it
returns the first outgoing-or-story candidate of the receipt's source
conversation, and only when no such candidate exists does it fall back to
the first outgoing-or-story candidate whose conversation is among the
groups the source identity participates in, the source conversation id
itself included. -/
theorem c5_matcher_priority (env : Env) (sourceId serviceId : String)
    (messages : List MessageAttributesType) (m : MessageAttributesType) :
    getTargetMessage env sourceId serviceId [] = none ∧
    (messages.find? (fun item =>
        (isOutgoing item || isStory item) && sourceId == item.conversationId)
        = some m →
      getTargetMessage env sourceId serviceId messages = some m) ∧
    (messages.find? (fun item =>
        (isOutgoing item || isStory item) && sourceId == item.conversationId)
        = none →
      getTargetMessage env sourceId serviceId messages =
        messages.find? (fun item =>
          (isOutgoing item || isStory item) &&
          ((env.getAllGroupsInvolvingServiceId serviceId).map
              (fun item => item.id) ++ [sourceId]).contains item.conversationId)) := by
  refine ⟨by simp [getTargetMessage], ?_, ?_⟩
  · intro hFind
    cases messages with
    | nil => simp at hFind
    | cons x xs => simp [getTargetMessage, hFind]
  · intro hFind
    cases messages with
    | nil => simp [getTargetMessage]
    | cons x xs => simp [getTargetMessage, hFind]

/-- C5 witness: with the outgoing message of `conv1` stored, the matcher
returns it for a receipt declaring source conversation `conv1`. -/
theorem c5_matcher_priority_witness :
    getTargetMessage envWithMessage "conv1" "aci1" [sampleOutgoingMessage] =
      some sampleOutgoingMessage :=
  (c5_matcher_priority envWithMessage "conv1" "aci1" [sampleOutgoingMessage]
    sampleOutgoingMessage).2.1 (by decide)

/-- C6: when the primary matcher finds no target message, `onReceipt`
applies the receipt to every stored candidate with a
story-distribution-list id that is not deleted for everyone and whose
send-state mapping has an entry for the receipt's source conversation —
the whole set of story copies is processed, not a single one. -/
theorem c6_story_fallback_set (env : Env)
    (buffer : List MessageReceiptAttributesType)
    (receipt : MessageReceiptAttributesType)
    (h : getTargetMessage env receipt.sourceConversationId
      receipt.sourceServiceId
      (env.getMessagesBySentAt receipt.messageSentAt) = none) :
    (MessageReceipts.onReceipt env buffer receipt).processed =
      (MessageReceipts.storyTargets env receipt).map
        (MessageReceipts.updateMessageSendState env receipt) ∧
    (∀ item : MessageAttributesType,
      item ∈ MessageReceipts.storyTargets env receipt ↔
        (item ∈ env.getMessagesBySentAt receipt.messageSentAt ∧
          item.storyDistributionListId.isSome = true ∧
          item.deletedForEveryone = false ∧
          (getOwn (item.sendStateByConversationId.getD [])
            receipt.sourceConversationId).isSome = true)) := by
  constructor
  · unfold MessageReceipts.onReceipt
    by_cases hS : MessageReceipts.storyTargets env receipt = []
    · simp [h, hS]
    · simp [h, hS, List.isEmpty_iff]
  · intro item
    unfold MessageReceipts.storyTargets
    rw [List.mem_filter]
    constructor
    · intro hmem
      obtain ⟨hin, hp⟩ := hmem
      simp only [Bool.and_eq_true, Bool.not_eq_true'] at hp
      exact ⟨hin, hp.1.1.1, hp.1.2, hp.2⟩
    · intro hmem
      obtain ⟨hin, hdist, hdel, hstate⟩ := hmem
      refine ⟨hin, ?_⟩
      have hsome : item.sendStateByConversationId.isSome = true := by
        cases hss : item.sendStateByConversationId with
        | none => rw [hss] at hstate; simp [getOwn] at hstate
        | some l => rfl
      simp only [Bool.and_eq_true, Bool.not_eq_true']
      exact ⟨⟨⟨hdist, hsome⟩, hdel⟩, hstate⟩

/-- C6 witness: with only the story-distribution copy in storage, the
primary matcher fails and the receipt is applied to that story copy. -/
theorem c6_story_fallback_set_witness :
    (MessageReceipts.onReceipt envWithStory [sampleReceipt]
      sampleReceipt).processed =
      (MessageReceipts.storyTargets envWithStory sampleReceipt).map
        (MessageReceipts.updateMessageSendState envWithStory sampleReceipt) :=
  (c6_story_fallback_set envWithStory [sampleReceipt] sampleReceipt
    (by decide)).1

/-- C7 counterexample: an incoming message queried against the buffer
leaves a receipt with exactly its sent timestamp in the buffer and returns
nothing — `forMessage` does not remove every matching buffered receipt for
every queried message. -/
theorem c7_incoming_message_removes_nothing :
    sampleReceipt.messageSentAt = getMessageSentTimestamp sampleIncomingMessage ∧
    (MessageReceipts.forMessage envNoMessages [sampleReceipt]
      sampleIncomingMessage).buffer = [sampleReceipt] ∧
    (MessageReceipts.forMessage envNoMessages [sampleReceipt]
      sampleIncomingMessage).receipts = [] := by
  decide

/-- C7 (amended): for an outgoing-or-story message whose source identity is
our own ACI, `forMessage` removes from the buffer exactly the receipts
whose `messageSentAt` equals the message's sent timestamp and returns
exactly those removed receipts that pass the policy check; returned
receipts are gone from the buffer, and a second query retrieves nothing. -/
theorem c7_for_message_drain (env : Env)
    (buffer : List MessageReceiptAttributesType) (m : MessageAttributesType)
    (receipt : MessageReceiptAttributesType)
    (h1 : (isOutgoing m || isStory m) = true)
    (h2 : env.getSourceServiceId m = some env.ourAci) :
    (receipt ∈ (MessageReceipts.forMessage env buffer m).buffer ↔
      receipt ∈ buffer ∧ receipt.messageSentAt ≠ getMessageSentTimestamp m) ∧
    (receipt ∈ (MessageReceipts.forMessage env buffer m).receipts ↔
      receipt ∈ buffer ∧ receipt.messageSentAt = getMessageSentTimestamp m ∧
        shouldDropReceipt env receipt m = false) ∧
    (receipt ∈ (MessageReceipts.forMessage env buffer m).receipts →
      receipt ∉ (MessageReceipts.forMessage env buffer m).buffer) ∧
    (MessageReceipts.forMessage env
      ((MessageReceipts.forMessage env buffer m).buffer) m).receipts = [] := by
  have hres : MessageReceipts.forMessage env buffer m =
      { receipts := (buffer.filter (fun receipt =>
            receipt.messageSentAt == getMessageSentTimestamp m)).filter
          (fun receipt => !shouldDropReceipt env receipt m),
        buffer := buffer.filter (fun receipt =>
          !(receipt.messageSentAt == getMessageSentTimestamp m)) } := by
    unfold MessageReceipts.forMessage
    simp [h1, h2]
  refine ⟨?_, ?_, ?_, ?_⟩
  · rw [hres]
    simp [List.mem_filter]
  · rw [hres]
    simp only [List.mem_filter, Bool.not_eq_true', beq_iff_eq]
    constructor
    · intro hp
      exact ⟨hp.1.1, hp.1.2, hp.2⟩
    · intro hp
      exact ⟨⟨hp.1, hp.2.1⟩, hp.2.2⟩
  · rw [hres]
    simp only [List.mem_filter, Bool.not_eq_true', beq_iff_eq]
    intro hp hq
    exact absurd hp.1.2 (by simpa using hq.2)
  · rw [hres]
    have hres2 : MessageReceipts.forMessage env
        (buffer.filter (fun receipt =>
          !(receipt.messageSentAt == getMessageSentTimestamp m))) m =
        { receipts := ((buffer.filter (fun receipt =>
              !(receipt.messageSentAt == getMessageSentTimestamp m))).filter
                (fun receipt =>
                  receipt.messageSentAt == getMessageSentTimestamp m)).filter
            (fun receipt => !shouldDropReceipt env receipt m),
          buffer := (buffer.filter (fun receipt =>
              !(receipt.messageSentAt == getMessageSentTimestamp m))).filter
            (fun receipt =>
              !(receipt.messageSentAt == getMessageSentTimestamp m)) } := by
      unfold MessageReceipts.forMessage
      simp [h1, h2]
    have hinner : (buffer.filter (fun receipt =>
        !(receipt.messageSentAt == getMessageSentTimestamp m))).filter
          (fun receipt => receipt.messageSentAt == getMessageSentTimestamp m)
        = [] := by
      rw [List.filter_eq_nil_iff]
      intro r hr
      have := List.of_mem_filter hr
      simpa using this
    show (MessageReceipts.forMessage env (buffer.filter (fun receipt =>
      !(receipt.messageSentAt == getMessageSentTimestamp m))) m).receipts = []
    rw [hres2]
    simp [hinner]

/-- C7 witness: an outgoing message of ours drains the single matching
delivery receipt out of the buffer. -/
theorem c7_for_message_drain_witness :
    sampleReceipt ∈ (MessageReceipts.forMessage envNoMessages [sampleReceipt]
      sampleOutgoingMessage).receipts :=
  ((c7_for_message_drain envNoMessages [sampleReceipt] sampleOutgoingMessage
    sampleReceipt (by decide) (by decide)).2.1).mpr
    ⟨by decide, by decide, by decide⟩

/-- C8: a Delivery receipt is never dropped; a Read receipt is dropped
exactly when the global read-receipt setting is off; a View receipt for
story content is dropped exactly when per-story view receipts are
disabled. -/
theorem c8_drop_policy (env : Env) (receipt : MessageReceiptAttributesType)
    (m : MessageAttributesType) :
    (receipt.type = MessageReceiptType.Delivery →
      shouldDropReceipt env receipt m = false) ∧
    (receipt.type = MessageReceiptType.Read →
      (shouldDropReceipt env receipt m = true ↔
        env.readReceiptSetting = false)) ∧
    (receipt.type = MessageReceiptType.View → isStory m = true →
      (shouldDropReceipt env receipt m = true ↔
        env.storyViewReceiptsEnabled = false)) := by
  refine ⟨?_, ?_, ?_⟩
  · intro ht
    simp [shouldDropReceipt, ht]
  · intro ht
    simp [shouldDropReceipt, ht]
  · intro ht hstory
    simp [shouldDropReceipt, ht, hstory]

/-- C8 witness: with read receipts off and story view receipts on, the
delivery receipt is kept, the read receipt is dropped, and the view receipt
for the story message is kept. -/
theorem c8_drop_policy_witness :
    shouldDropReceipt { envNoMessages with readReceiptSetting := false }
      sampleReceipt sampleOutgoingMessage = false ∧
    (shouldDropReceipt { envNoMessages with readReceiptSetting := false }
      { sampleReceipt with type := MessageReceiptType.Read }
      sampleOutgoingMessage = true ↔
      ({ envNoMessages with readReceiptSetting := false } : Env).readReceiptSetting
        = false) ∧
    (shouldDropReceipt { envNoMessages with readReceiptSetting := false }
      { sampleReceipt with type := MessageReceiptType.View }
      sampleStoryMessage = true ↔
      ({ envNoMessages with readReceiptSetting := false } : Env).storyViewReceiptsEnabled
        = false) :=
  ⟨(c8_drop_policy { envNoMessages with readReceiptSetting := false }
      sampleReceipt sampleOutgoingMessage).1 rfl,
   (c8_drop_policy { envNoMessages with readReceiptSetting := false }
      { sampleReceipt with type := MessageReceiptType.Read }
      sampleOutgoingMessage).2.1 rfl,
   (c8_drop_policy { envNoMessages with readReceiptSetting := false }
      { sampleReceipt with type := MessageReceiptType.View }
      sampleStoryMessage).2.2 rfl (by decide)⟩

/-- C9 counterexample: for a response carrying both a phone number and a
group-v2 id, `onResponse` selects the group conversation found by id even
though a lookup-or-create by phone number would return a different
conversation — the group-id match is tried first, not last. -/
theorem c9_group_id_tried_first :
    (MessageRequests.onResponse envGroupAndPhone [sampleRequestSync]
      sampleRequestSync).applied = some (groupConversation, 1) ∧
    envGroupAndPhone.lookupOrCreate sampleRequestSync.threadE164
      sampleRequestSync.threadAci = some phoneConversation ∧
    groupConversation ≠ phoneConversation := by
  decide

/-- C9 (amended): `onResponse` selects its target conversation by trying
the group-v2 id first — a pure lookup that never creates — and only when
that yields nothing does it look up or create a conversation from the phone
number / service identity; with neither identifier available no
conversation is selected.  (`forConversation`, matching buffered events to
a conversation, uses the order phone number → service id → group id.) -/
theorem c9_response_selection (env : Env)
    (buffer : List MessageRequestAttributesType)
    (sync : MessageRequestAttributesType) :
    (∀ g c, sync.groupV2Id = some g → env.getConversationById g = some c →
      (MessageRequests.onResponse env buffer sync).applied =
        some (c, sync.type)) ∧
    ((∀ g, sync.groupV2Id = some g → env.getConversationById g = none) →
      (sync.threadE164.isSome || sync.threadAci.isSome) = true →
      (MessageRequests.onResponse env buffer sync).applied =
        (env.lookupOrCreate sync.threadE164 sync.threadAci).map
          (fun c => (c, sync.type))) ∧
    ((∀ g, sync.groupV2Id = some g → env.getConversationById g = none) →
      (sync.threadE164.isSome || sync.threadAci.isSome) = false →
      (MessageRequests.onResponse env buffer sync).applied = none) := by
  refine ⟨?_, ?_, ?_⟩
  · intro g c hg hc
    unfold MessageRequests.onResponse
    simp [hg, hc]
  · intro hnone hids
    have hFromGroup : (match sync.groupV2Id with
        | some groupV2Id => env.getConversationById groupV2Id
        | none => none) = (none : Option Conversation) := by
      cases hg : sync.groupV2Id with
      | none => rfl
      | some g => exact hnone g hg
    unfold MessageRequests.onResponse
    rw [hFromGroup]
    simp only [hids, if_true]
    cases hLk : env.lookupOrCreate sync.threadE164 sync.threadAci with
    | none => simp
    | some c => simp
  · intro hnone hids
    have hFromGroup : (match sync.groupV2Id with
        | some groupV2Id => env.getConversationById groupV2Id
        | none => none) = (none : Option Conversation) := by
      cases hg : sync.groupV2Id with
      | none => rfl
      | some g => exact hnone g hg
    unfold MessageRequests.onResponse
    rw [hFromGroup]
    simp [hids]

/-- C9 witness: with no group id on the response, the conversation comes
from lookup-or-create on the phone number. -/
theorem c9_response_selection_witness :
    (MessageRequests.onResponse envGroupAndPhone []
      { sampleRequestSync with groupV2Id := none }).applied =
      (envGroupAndPhone.lookupOrCreate
        ({ sampleRequestSync with groupV2Id := none
          } : MessageRequestAttributesType).threadE164
        ({ sampleRequestSync with groupV2Id := none
          } : MessageRequestAttributesType).threadAci).map
        (fun c => (c, ({ sampleRequestSync with groupV2Id := none
          } : MessageRequestAttributesType).type)) :=
  (c9_response_selection envGroupAndPhone []
    { sampleRequestSync with groupV2Id := none }).2.1
    (by intro g hg; simp at hg) (by decide)

/-- C10: merging a receipt into a mapping with no entry for the receipt's
source conversation treats the missing prior state as
`{status: Sent, updatedAt: undefined}`, and the merged mapping always has
an entry for the source conversation. -/
theorem c10_missing_entry_defaults (s : SendStateByConversationId)
    (receipt : MessageReceiptAttributesType) :
    (getOwn s receipt.sourceConversationId = none →
      getOwn (MessageReceipts.getNewSendStateByConversationId s receipt)
          receipt.sourceConversationId =
        some (sendStateReducer { status := SendStatus.Sent, updatedAt := none }
          { type := MessageReceipts.receiptSendActionType receipt.type,
            updatedAt := some receipt.receiptTimestamp })) ∧
    (getOwn (MessageReceipts.getNewSendStateByConversationId s receipt)
      receipt.sourceConversationId).isSome = true := by
  constructor
  · intro hmiss
    unfold MessageReceipts.getNewSendStateByConversationId
    rw [hmiss]
    simp [getOwn_setOwn_self]
  · unfold MessageReceipts.getNewSendStateByConversationId
    simp [getOwn_setOwn_self]

/-- C10 witness: a delivery receipt merged into the empty mapping creates
the entry for its source conversation from the `Sent` default. -/
theorem c10_missing_entry_defaults_witness :
    getOwn (MessageReceipts.getNewSendStateByConversationId [] sampleReceipt)
        sampleReceipt.sourceConversationId =
      some (sendStateReducer { status := SendStatus.Sent, updatedAt := none }
        { type := MessageReceipts.receiptSendActionType sampleReceipt.type,
          updatedAt := some sampleReceipt.receiptTimestamp }) :=
  (c10_missing_entry_defaults [] sampleReceipt).1 (by decide)
